import Mathlib

/-!
Formal model of the Validator-agent service (validator.py and main.py).

The service forwards prompts to an external Gemini model and reshapes the
model text completion into JSON payloads.  We embed:

* a JSON value type and an executable JSON reader that models the behaviour
  of the Python json module on the fragment the service exchanges
  (objects, arrays, strings with the common escapes, integers and the three
  keyword literals; floating point numbers and unicode escapes lie outside
  the fragment any claim touches and are rejected by this reader);
* the prompt builders, the two validator classes and their three operations
  from validator.py, with the external model client abstracted as a
  Gateway function from the stored API key and the prompt to either an
  exception message or the raw text completion; the json method on the
  client response is modelled as JSON-parsing the returned text, as the
  specification describes the Response Extractor;
* the HTTP endpoints and the health check from main.py, with the FastAPI
  response-model coercion layer treated as out-of-scope framework glue.

Each operation also reports the list of prompts sent to the Gateway, so
that statements about the number of network attempts can be made.
-/

/-- JSON values, as produced by the Python json module: objects keep their
key order as an association list. -/
inductive Json : Type where
  | null : Json
  | bool : Bool → Json
  | num : Int → Json
  | str : String → Json
  | arr : List Json → Json
  | obj : List (String × Json) → Json
deriving Repr

/-- Field access on a parsed JSON object; none on non-objects and missing
keys. -/
def Json.getField : Json → String → Option Json
  | Json.obj kvs, k => List.lookup k kvs
  | _, _ => none

/-- JSON whitespace, as accepted between tokens by the Python json module. -/
def isWs (c : Char) : Bool :=
  c == ' ' || c == '\n' || c == '\t' || c == '\r'

/-- Drop leading JSON whitespace. -/
def skipWs : List Char → List Char
  | [] => []
  | c :: cs => if isWs c then skipWs cs else c :: cs

/-- Translation of a string escape character, covering the escapes the
Python json module accepts except the unicode form. -/
def escChar (c : Char) : Option Char :=
  if c == '\"' then some '\"'
  else if c == '\\' then some '\\'
  else if c == '/' then some '/'
  else if c == 'n' then some '\n'
  else if c == 't' then some '\t'
  else if c == 'r' then some '\r'
  else if c == 'b' then some (Char.ofNat 8)
  else if c == 'f' then some (Char.ofNat 12)
  else none

/-- Read the body of a JSON string after the opening quote, returning the
decoded string and the remaining input. -/
def readStrBody (acc : List Char) : List Char → Option (String × List Char)
  | [] => none
  | c :: cs =>
    if c == '\"' then some (String.mk acc.reverse, cs)
    else if c == '\\' then
      match cs with
      | [] => none
      | e :: cs2 =>
        match escChar e with
        | some r => readStrBody (r :: acc) cs2
        | none => none
    else readStrBody (c :: acc) cs

/-- Accumulate a run of decimal digits. -/
def readDigits (acc : Nat) : List Char → Nat × List Char
  | [] => (acc, [])
  | c :: cs =>
    if c.isDigit then readDigits (acc * 10 + (c.toNat - 48)) cs
    else (acc, c :: cs)

mutual

/-- Read one JSON value from the input; fuel bounds the recursion depth. -/
def readValue : Nat → List Char → Option (Json × List Char)
  | 0, _ => none
  | fuel + 1, input =>
    match skipWs input with
    | [] => none
    | c :: rest =>
      if c == '\"' then
        match readStrBody [] rest with
        | some (s, rem) => some (Json.str s, rem)
        | none => none
      else if c == '\x7b' then
        match skipWs rest with
        | [] => none
        | c2 :: rest2 =>
          if c2 == '\x7d' then some (Json.obj [], rest2)
          else
            match readMembers fuel (c2 :: rest2) with
            | some (kvs, rem) => some (Json.obj kvs, rem)
            | none => none
      else if c == '[' then
        match skipWs rest with
        | [] => none
        | c2 :: rest2 =>
          if c2 == ']' then some (Json.arr [], rest2)
          else
            match readElems fuel (c2 :: rest2) with
            | some (xs, rem) => some (Json.arr xs, rem)
            | none => none
      else if c == 't' then
        match rest with
        | 'r' :: 'u' :: 'e' :: rem => some (Json.bool true, rem)
        | _ => none
      else if c == 'f' then
        match rest with
        | 'a' :: 'l' :: 's' :: 'e' :: rem => some (Json.bool false, rem)
        | _ => none
      else if c == 'n' then
        match rest with
        | 'u' :: 'l' :: 'l' :: rem => some (Json.null, rem)
        | _ => none
      else if c == '-' then
        match rest with
        | d :: ds =>
          if d.isDigit then
            match readDigits 0 (d :: ds) with
            | (n, rem) => some (Json.num (-(Int.ofNat n)), rem)
          else none
        | [] => none
      else if c.isDigit then
        match readDigits 0 (c :: rest) with
        | (n, rem) => some (Json.num (Int.ofNat n), rem)
      else none

/-- Read a comma-separated list of values up to the closing bracket. -/
def readElems : Nat → List Char → Option (List Json × List Char)
  | 0, _ => none
  | fuel + 1, input =>
    match readValue fuel input with
    | none => none
    | some (v, rest) =>
      match skipWs rest with
      | [] => none
      | c :: rest2 =>
        if c == ',' then
          match readElems fuel rest2 with
          | some (vs, rem) => some (v :: vs, rem)
          | none => none
        else if c == ']' then some ([v], rest2)
        else none

/-- Read a comma-separated list of key-value members up to the closing
brace. -/
def readMembers : Nat → List Char → Option (List (String × Json) × List Char)
  | 0, _ => none
  | fuel + 1, input =>
    match skipWs input with
    | [] => none
    | c :: rest =>
      if c == '\"' then
        match readStrBody [] rest with
        | none => none
        | some (k, rest2) =>
          match skipWs rest2 with
          | [] => none
          | c2 :: rest3 =>
            if c2 == ':' then
              match readValue fuel rest3 with
              | none => none
              | some (v, rest4) =>
                match skipWs rest4 with
                | [] => none
                | c3 :: rest5 =>
                  if c3 == ',' then
                    match readMembers fuel rest5 with
                    | some (kvs, rem) => some ((k, v) :: kvs, rem)
                    | none => none
                  else if c3 == '\x7d' then some ([(k, v)], rest5)
                  else none
            else none
      else none

end

/-- Parse a whole string as one JSON document, as json.loads does: one
value, optionally surrounded by whitespace, with nothing after it. -/
def Json.parse (s : String) : Option Json :=
  match readValue (s.length + 1) s.data with
  | some (v, rest) => if (skipWs rest).isEmpty then some v else none
  | none => none

/-- Success test on an Except value. -/
def isOkB {ε α : Type} : Except ε α → Bool
  | Except.ok _ => true
  | Except.error _ => false

/-- The named field of a successful JSON object result. -/
def okField {ε : Type} (r : Except ε Json) (k : String) : Option Json :=
  match r with
  | Except.ok j => j.getField k
  | Except.error _ => none

/-- The needle occurs verbatim inside the hay. -/
def isSubstrOf (needle hay : String) : Prop :=
  ∃ a b : String, hay = a ++ (needle ++ b)

/-- Whether a character list contains a markdown code fence marker, a run
of three backticks. -/
def hasFenceChars : List Char → Bool
  | '\x60' :: '\x60' :: '\x60' :: _ => true
  | _ :: cs => hasFenceChars cs
  | [] => false

/-- Whether the text contains a markdown code fence marker. -/
def hasFence (s : String) : Bool := hasFenceChars s.data

/-- Python or on optional strings: the left value when truthy, meaning
present and non-empty, else the right value. -/
def pyOr (a b : Option String) : Option String :=
  match a with
  | some s => if s.isEmpty then b else some s
  | none => b

/-- Python bool coercion of an optional string: false for absent or
empty. -/
def pyTruthy : Option String → Bool
  | none => false
  | some s => !s.isEmpty

/-- Diagnostic text of the exception raised on a failed JSON parse.  The
exact wording comes from the Python json library and is modelled as a
fixed description; no claim depends on the wording. -/
def jsonErrorText (_raw : String) : String := "Expecting value"

/-- Text of the problem validation prompt before the interpolated problem
statement (validator.py, validate_problem). -/
def vpHeader : String :=
  "\n        Analyze the following Data Structures and Algorithms problem and determine if it\x27s valid.\n        A valid problem must:\n        1. Have clear, unambiguous requirements\n        2. Be free of logical contradictions or circular dependencies\n        3. Have at least one valid solution\n        4. Provide sufficient information to solve\n        \n        Problem Statement:\n        "

/-- Text of the problem validation prompt after the interpolated problem
statement. -/
def vpFooter : String :=
  "\n        \n        Please analyze the problem carefully and return a JSON with the following structure:\n        \x7b\n            \"is_valid\": true/false,\n            \"reason\": \"detailed explanation of validity or issues\",\n            \"suggested_fixes\": [\"fix1\", \"fix2\"] (only if invalid)\n        \x7d\n        "

/-- The prompt built by validate_problem: the f-string with the problem
statement interpolated once. -/
def buildProblemValidationPrompt (problem_statement : String) : String :=
  vpHeader ++ (problem_statement ++ vpFooter)

/-- Solution validation prompt, part before the problem statement. -/
def svA : String :=
  "\n        Evaluate if the following solution correctly solves the given DSA problem.\n        \n        Problem Statement:\n        "

/-- Solution validation prompt, between the problem statement and the
first language interpolation. -/
def svB : String := "\n        \n        Proposed Solution ("

/-- Solution validation prompt, between the two language interpolations,
opening the code fence. -/
def svC : String := "):\n        \x60\x60\x60"

/-- Solution validation prompt, between the second language interpolation
and the code. -/
def svD : String := "\n        "

/-- Solution validation prompt, part after the code. -/
def svE : String :=
  "\n        \x60\x60\x60\n        \n        Please analyze the solution for:\n        1. Correctness: Does it solve the problem as specified?\n        2. Efficiency: What\x27s the time and space complexity?\n        3. Edge Cases: Does it handle all possible inputs?\n        4. Code Quality: Is the implementation clean and maintainable?\n        \n        Return a JSON with the following structure:\n        \x7b\n            \"is_correct\": true/false,\n            \"correctness_explanation\": \"detailed analysis of correctness\",\n            \"time_complexity\": \"e.g., O(n log n)\",\n            \"space_complexity\": \"e.g., O(n)\",\n            \"edge_cases_handled\": true/false,\n            \"edge_cases_explanation\": \"analysis of edge case handling\",\n            \"code_quality_score\": 1-10,\n            \"improvement_suggestions\": [\"suggestion1\", \"suggestion2\"]\n        \x7d\n        "

/-- The prompt built by check_solution: the f-string with the problem
statement, the language twice and the code interpolated. -/
def buildSolutionValidationPrompt (problem_statement solution_code language : String) : String :=
  svA ++ (problem_statement ++ (svB ++ (language ++ (svC ++ (language ++ (svD ++ (solution_code ++ svE)))))))

/-- Test case generation prompt, part before the interpolated count. -/
def tcA : String := "\n        Generate "

/-- Test case generation prompt, between the count and the problem
statement. -/
def tcB : String := " diverse test cases for the following DSA problem:\n        \n        "

/-- Test case generation prompt, part after the problem statement. -/
def tcC : String :=
  "\n        \n        Include normal cases, edge cases, and corner cases. For each test case, provide:\n        1. Input values\n        2. Expected output\n        3. Brief explanation of what the test case is checking\n        \n        Return the test cases as a JSON array with the following structure:\n        [\n            \x7b\n                \"input\": \"description of input (in a format appropriate for the problem)\",\n                \"expected_output\": \"expected output value\",\n                \"explanation\": \"what this test case is checking\"\n            \x7d,\n            ...more test cases...\n        ]\n        "

/-- The prompt built by generate_test_cases: the f-string with the count
and the problem statement interpolated. -/
def buildTestCaseGenerationPrompt (problem_statement : String) (num_test_cases : Nat) : String :=
  tcA ++ (toString num_test_cases ++ (tcB ++ (problem_statement ++ tcC)))

/-- The external model client, abstracted: from the API key stored on the
validator and the prompt to either an exception message or the raw text
completion.  The fixed generation options (temperature, token limit, mime
type) are opaque options of the external call and are omitted. -/
abbrev Gateway := Option String → String → Except String String

/-- State of DSAProblemValidator from validator.py: the stored API key. -/
structure DSAProblemValidator where
  apiKey : Option String

/-- Constructor of DSAProblemValidator: the key argument, or the
GEMINI_API_KEY environment entry when the argument is falsy; no check is
performed on the result and no error can be raised here by the service
itself. -/
def DSAProblemValidator.init (api_key : Option String) (env : Option String) :
    DSAProblemValidator :=
  ⟨pyOr api_key env⟩

/-- The validate_problem method: build the prompt, call the Gateway once,
then try to parse the response text as JSON; a parse failure is converted
into a returned fallback dictionary, while a Gateway exception propagates.
The second component records the prompts sent to the Gateway. -/
def DSAProblemValidator.validate_problem (self : DSAProblemValidator) (gw : Gateway)
    (problem_statement : String) : Except String Json × List String :=
  let prompt := buildProblemValidationPrompt problem_statement
  let result : Except String Json :=
    match gw self.apiKey prompt with
    | Except.error e => Except.error e
    | Except.ok text =>
      match Json.parse text with
      | some validation_result => Except.ok validation_result
      | none =>
        Except.ok (Json.obj
          [("is_valid", Json.bool false),
           ("reason", Json.str ("Error processing response: " ++ jsonErrorText text)),
           ("raw_response", Json.str text)])
  (result, [prompt])

/-- State of SolutionValidator from validator.py: the stored API key. -/
structure SolutionValidator where
  apiKey : Option String

/-- Constructor of SolutionValidator, identical in shape to the problem
validator constructor. -/
def SolutionValidator.init (api_key : Option String) (env : Option String) :
    SolutionValidator :=
  ⟨pyOr api_key env⟩

/-- The check_solution method: build the prompt, call the Gateway once,
then try to parse the response text as JSON; a parse failure is converted
into a returned fallback dictionary, while a Gateway exception propagates.
The second component records the prompts sent to the Gateway. -/
def SolutionValidator.check_solution (self : SolutionValidator) (gw : Gateway)
    (problem_statement solution_code language : String) :
    Except String Json × List String :=
  let prompt := buildSolutionValidationPrompt problem_statement solution_code language
  let result : Except String Json :=
    match gw self.apiKey prompt with
    | Except.error e => Except.error e
    | Except.ok text =>
      match Json.parse text with
      | some evaluation_result => Except.ok evaluation_result
      | none =>
        Except.ok (Json.obj
          [("is_correct", Json.bool false),
           ("correctness_explanation", Json.str ("Error processing response: " ++ jsonErrorText text)),
           ("raw_response", Json.str text)])
  (result, [prompt])

/-- The generate_test_cases method: build the prompt, call the Gateway
once, then try to parse the response text as JSON; a parse failure is
converted into a returned one-element list holding an error dictionary,
while a Gateway exception propagates.  The second component records the
prompts sent to the Gateway. -/
def SolutionValidator.generate_test_cases (self : SolutionValidator) (gw : Gateway)
    (problem_statement : String) (num_test_cases : Nat) :
    Except String Json × List String :=
  let prompt := buildTestCaseGenerationPrompt problem_statement num_test_cases
  let result : Except String Json :=
    match gw self.apiKey prompt with
    | Except.error e => Except.error e
    | Except.ok text =>
      match Json.parse text with
      | some test_cases => Except.ok test_cases
      | none =>
        Except.ok (Json.arr
          [Json.obj
            [("error", Json.str ("Failed to generate test cases: " ++ jsonErrorText text)),
             ("raw_response", Json.str text)]])
  (result, [prompt])

/-- Dependency provider from main.py: builds the problem validator from
the GEMINI_API_KEY environment entry. -/
def get_problem_validator (env : Option String) : DSAProblemValidator :=
  DSAProblemValidator.init env env

/-- Dependency provider from main.py: builds the solution validator from
the GEMINI_API_KEY environment entry. -/
def get_solution_validator (env : Option String) : SolutionValidator :=
  SolutionValidator.init env env

/-- The FastAPI error response raised by the endpoints. -/
structure HTTPException where
  status_code : Nat
  detail : String

/-- The validate-problem endpoint from main.py: any exception out of the
validator is translated into a 500 response whose detail embeds the
exception message.  The pydantic response-model coercion is framework glue
outside the modelled core. -/
def validate_problem_endpoint (env : Option String) (gw : Gateway)
    (problem_statement : String) : Except HTTPException Json :=
  match ((get_problem_validator env).validate_problem gw problem_statement).1 with
  | Except.ok result => Except.ok result
  | Except.error e => Except.error ⟨500, "Validation error: " ++ e⟩

/-- The validate-solution endpoint from main.py. -/
def validate_solution_endpoint (env : Option String) (gw : Gateway)
    (problem_statement solution_code language : String) : Except HTTPException Json :=
  match ((get_solution_validator env).check_solution gw problem_statement solution_code language).1 with
  | Except.ok result => Except.ok result
  | Except.error e => Except.error ⟨500, "Solution validation error: " ++ e⟩

/-- The generate-test-cases endpoint from main.py. -/
def generate_test_cases_endpoint (env : Option String) (gw : Gateway)
    (problem_statement : String) (num_test_cases : Nat) : Except HTTPException Json :=
  match ((get_solution_validator env).generate_test_cases gw problem_statement num_test_cases).1 with
  | Except.ok result => Except.ok result
  | Except.error e => Except.error ⟨500, "Test case generation error: " ++ e⟩

/-- The health endpoint from main.py: reports whether the GEMINI_API_KEY
environment entry is truthy. -/
def health_check (env : Option String) : Json :=
  Json.obj [("status", Json.str ("healthy")),
            ("gemini_api_configured", Json.bool (pyTruthy env))]

/-- A backtick is not the start of any JSON token, so the reader rejects
input headed by one. -/
theorem readValue_backtick (k : Nat) (cs : List Char) :
    readValue (k + 1) ('\x60' :: cs) = none := rfl

/-- Any text beginning with a markdown code fence fails JSON parsing. -/
theorem parse_fence_head (s : String) : Json.parse ("\x60\x60\x60" ++ s) = none := by
  have hd : ("\x60\x60\x60" ++ s).data = '\x60' :: '\x60' :: '\x60' :: s.data := by
    simp [String.data_append]
  unfold Json.parse
  rw [hd, readValue_backtick]

/-- C1 counterexample: with a Gateway whose text cannot be parsed as JSON,
validate_problem and check_solution both return a successful response body
whose field values were synthesized by the system and which carries the raw
text, so the failure does not propagate as a distinguishable system
error. -/
theorem c1_counterexample :
    isOkB ((DSAProblemValidator.init (some ("key")) (some ("key"))).validate_problem
      (fun _ _ => Except.ok ("I cannot analyze this.")) ("p")).1 = true
    ∧ okField ((DSAProblemValidator.init (some ("key")) (some ("key"))).validate_problem
      (fun _ _ => Except.ok ("I cannot analyze this.")) ("p")).1 ("is_valid")
      = some (Json.bool false)
    ∧ okField ((DSAProblemValidator.init (some ("key")) (some ("key"))).validate_problem
      (fun _ _ => Except.ok ("I cannot analyze this.")) ("p")).1 ("raw_response")
      = some (Json.str ("I cannot analyze this."))
    ∧ isOkB ((SolutionValidator.init (some ("key")) (some ("key"))).check_solution
      (fun _ _ => Except.ok ("I cannot analyze this.")) ("p") ("c") ("python")).1 = true
    ∧ okField ((SolutionValidator.init (some ("key")) (some ("key"))).check_solution
      (fun _ _ => Except.ok ("I cannot analyze this.")) ("p") ("c") ("python")).1 ("is_correct")
      = some (Json.bool false)
    ∧ okField ((SolutionValidator.init (some ("key")) (some ("key"))).check_solution
      (fun _ _ => Except.ok ("I cannot analyze this.")) ("p") ("c") ("python")).1 ("raw_response")
      = some (Json.str ("I cannot analyze this.")) :=
  ⟨rfl, rfl, rfl, rfl, rfl, rfl⟩

/-- C1 (amended): when the model response text cannot be parsed as JSON,
validate_problem and check_solution do not raise; each returns, as a
successful response body, a system-synthesized fallback dictionary with
the negative flag set to false, a diagnostic reason, and the original raw
text under the raw_response key, which is what distinguishes the fallback
from a parsed verdict. -/
theorem c1_amended_fallback_dict (v : DSAProblemValidator) (w : SolutionValidator)
    (gw : Gateway) (p c l raw : String)
    (hg1 : gw v.apiKey (buildProblemValidationPrompt p) = Except.ok raw)
    (hg2 : gw w.apiKey (buildSolutionValidationPrompt p c l) = Except.ok raw)
    (hp : Json.parse raw = none) :
    (v.validate_problem gw p).1 = Except.ok (Json.obj
      [("is_valid", Json.bool false),
       ("reason", Json.str ("Error processing response: " ++ jsonErrorText raw)),
       ("raw_response", Json.str raw)])
    ∧ (w.check_solution gw p c l).1 = Except.ok (Json.obj
      [("is_correct", Json.bool false),
       ("correctness_explanation", Json.str ("Error processing response: " ++ jsonErrorText raw)),
       ("raw_response", Json.str raw)]) := by
  constructor
  · simp [DSAProblemValidator.validate_problem, hg1, hp]
  · simp [SolutionValidator.check_solution, hg2, hp]

/-- C1 witness: the amended statement at a concrete unparseable response. -/
theorem c1_amended_fallback_dict_witness :
    ((DSAProblemValidator.init (some ("key")) (some ("key"))).validate_problem
      (fun _ _ => Except.ok ("I cannot analyze this.")) ("p")).1 = Except.ok (Json.obj
      [("is_valid", Json.bool false),
       ("reason", Json.str ("Error processing response: " ++ jsonErrorText ("I cannot analyze this."))),
       ("raw_response", Json.str ("I cannot analyze this."))]) :=
  (c1_amended_fallback_dict (DSAProblemValidator.init (some ("key")) (some ("key")))
    (SolutionValidator.init (some ("key")) (some ("key")))
    (fun _ _ => Except.ok ("I cannot analyze this.")) ("p") ("c") ("python")
    ("I cannot analyze this.") rfl rfl rfl).1

/-- C2 counterexample: for valid JSON wrapped in a language-tagged markdown
code fence, the extractor does not return the same parsed value as for the
unwrapped text: the fenced response fails to parse and yields the
synthesized fallback dictionary (negative flag, raw_response key), while
the unwrapped text yields the parsed object. -/
theorem c2_counterexample :
    okField ((DSAProblemValidator.init (some ("key")) (some ("key"))).validate_problem
      (fun _ _ => Except.ok ("\x60\x60\x60json\n\x7b\"is_valid\": true, \"reason\": \"ok\"\x7d\n\x60\x60\x60"))
      ("p")).1 ("is_valid") = some (Json.bool false)
    ∧ okField ((DSAProblemValidator.init (some ("key")) (some ("key"))).validate_problem
      (fun _ _ => Except.ok ("\x60\x60\x60json\n\x7b\"is_valid\": true, \"reason\": \"ok\"\x7d\n\x60\x60\x60"))
      ("p")).1 ("raw_response")
      = some (Json.str ("\x60\x60\x60json\n\x7b\"is_valid\": true, \"reason\": \"ok\"\x7d\n\x60\x60\x60"))
    ∧ ((DSAProblemValidator.init (some ("key")) (some ("key"))).validate_problem
      (fun _ _ => Except.ok ("\x7b\"is_valid\": true, \"reason\": \"ok\"\x7d")) ("p")).1
      = Except.ok (Json.obj [("is_valid", Json.bool true), ("reason", Json.str ("ok"))])
    ∧ okField ((DSAProblemValidator.init (some ("key")) (some ("key"))).validate_problem
      (fun _ _ => Except.ok ("\x7b\"is_valid\": true, \"reason\": \"ok\"\x7d")) ("p")).1
      ("raw_response") = none :=
  ⟨rfl, rfl, rfl, rfl⟩

/-- C2 (amended): the Response Extractor performs no fence stripping; the
raw text is parsed as JSON directly, so raw text with no fences that is
valid JSON passes through as the parsed value, while any response
beginning with a code fence, language-tagged or not, fails JSON parsing
and produces the fallback dictionary rather than the parsed value. -/
theorem c2_amended_no_fence_stripping :
    (∀ (v : DSAProblemValidator) (gw : Gateway) (p raw : String) (j : Json),
      gw v.apiKey (buildProblemValidationPrompt p) = Except.ok raw →
      Json.parse raw = some j →
      (v.validate_problem gw p).1 = Except.ok j)
    ∧ (∀ s : String, Json.parse ("\x60\x60\x60" ++ s) = none) := by
  constructor
  · intro v gw p raw j hg hp
    simp [DSAProblemValidator.validate_problem, hg, hp]
  · exact parse_fence_head

/-- C2 witness: the amended statement at concrete inputs, one unfenced
JSON object that passes through parsed, one fenced text that fails to
parse. -/
theorem c2_amended_no_fence_stripping_witness :
    ((DSAProblemValidator.init (some ("key")) (some ("key"))).validate_problem
      (fun _ _ => Except.ok ("\x7b\"is_valid\": true, \"reason\": \"ok\"\x7d")) ("p")).1
      = Except.ok (Json.obj [("is_valid", Json.bool true), ("reason", Json.str ("ok"))])
    ∧ Json.parse ("\x60\x60\x60" ++ "json\n\x7b\"is_valid\": true\x7d\n\x60\x60\x60") = none :=
  ⟨c2_amended_no_fence_stripping.1 (DSAProblemValidator.init (some ("key")) (some ("key")))
      (fun _ _ => Except.ok ("\x7b\"is_valid\": true, \"reason\": \"ok\"\x7d")) ("p")
      ("\x7b\"is_valid\": true, \"reason\": \"ok\"\x7d")
      (Json.obj [("is_valid", Json.bool true), ("reason", Json.str ("ok"))]) rfl rfl,
    c2_amended_no_fence_stripping.2 ("json\n\x7b\"is_valid\": true\x7d\n\x60\x60\x60")⟩

/-- C3 counterexample: with the API key absent from the environment, the
health endpoint does report the configuration as absent, but
validate_problem performs no configuration check: the prompt is still sent
to the Gateway (one network attempt) and the call completes with an
ordinary verdict instead of failing fast with a configuration error. -/
theorem c3_counterexample :
    health_check none = Json.obj [("status", Json.str ("healthy")),
      ("gemini_api_configured", Json.bool false)]
    ∧ ((get_problem_validator none).validate_problem
      (fun _ _ => Except.ok ("\x7b\"is_valid\": true, \"reason\": \"ok\"\x7d")) ("p")).2
      = [buildProblemValidationPrompt ("p")]
    ∧ ((get_problem_validator none).validate_problem
      (fun _ _ => Except.ok ("\x7b\"is_valid\": true, \"reason\": \"ok\"\x7d")) ("p")).1
      = Except.ok (Json.obj [("is_valid", Json.bool true), ("reason", Json.str ("ok"))]) :=
  ⟨rfl, rfl, rfl⟩

/-- C3 (amended): when the API key is absent from the environment, the
health endpoint reports the configuration as absent, but the
Gateway-dependent operations fail no faster than usual: each stores the
absent key without any check and sends its prompt to the Gateway exactly
once, so no explicit configuration error precedes the network attempt. -/
theorem c3_amended_missing_key (gw : Gateway) (p c l : String) (n : Nat) :
    (get_problem_validator none).apiKey = none
    ∧ (get_solution_validator none).apiKey = none
    ∧ ((get_problem_validator none).validate_problem gw p).2
      = [buildProblemValidationPrompt p]
    ∧ ((get_solution_validator none).check_solution gw p c l).2
      = [buildSolutionValidationPrompt p c l]
    ∧ ((get_solution_validator none).generate_test_cases gw p n).2
      = [buildTestCaseGenerationPrompt p n]
    ∧ health_check none = Json.obj [("status", Json.str ("healthy")),
      ("gemini_api_configured", Json.bool false)] :=
  ⟨rfl, rfl, rfl, rfl, rfl, rfl⟩

/-- C3 witness: the amended statement at a concrete Gateway and inputs. -/
theorem c3_amended_missing_key_witness :
    ((get_problem_validator none).validate_problem
      (fun _ _ => Except.error ("auth failure")) ("p")).2
      = [buildProblemValidationPrompt ("p")]
    ∧ health_check none = Json.obj [("status", Json.str ("healthy")),
      ("gemini_api_configured", Json.bool false)] :=
  ⟨(c3_amended_missing_key (fun _ _ => Except.error ("auth failure"))
      ("p") ("c") ("l") 5).2.2.1,
    (c3_amended_missing_key (fun _ _ => Except.error ("auth failure"))
      ("p") ("c") ("l") 5).2.2.2.2.2⟩

/-- C4: for every raw model response with no fence markers that is valid
JSON, the extractor in validate_problem returns exactly the parsed JSON
value, unchanged. -/
theorem c4_unfenced_json_passthrough (v : DSAProblemValidator) (gw : Gateway)
    (p raw : String) (j : Json)
    (hg : gw v.apiKey (buildProblemValidationPrompt p) = Except.ok raw)
    (_hf : hasFence raw = false)
    (hp : Json.parse raw = some j) :
    (v.validate_problem gw p).1 = Except.ok j := by
  simp [DSAProblemValidator.validate_problem, hg, hp]

/-- C4 witness: a concrete unfenced JSON verdict passes through parsed and
unchanged. -/
theorem c4_unfenced_json_passthrough_witness :
    ((DSAProblemValidator.init (some ("key")) (some ("key"))).validate_problem
      (fun _ _ => Except.ok ("\x7b\"is_valid\": false, \"reason\": \"underspecified\"\x7d"))
      ("p")).1
      = Except.ok (Json.obj [("is_valid", Json.bool false),
          ("reason", Json.str ("underspecified"))]) :=
  c4_unfenced_json_passthrough (DSAProblemValidator.init (some ("key")) (some ("key")))
    (fun _ _ => Except.ok ("\x7b\"is_valid\": false, \"reason\": \"underspecified\"\x7d"))
    ("p") ("\x7b\"is_valid\": false, \"reason\": \"underspecified\"\x7d")
    (Json.obj [("is_valid", Json.bool false), ("reason", Json.str ("underspecified"))])
    rfl rfl rfl

/-- C5: whenever the model response parses as a JSON array,
generate_test_cases returns exactly the parsed items in order, for every
requested count: no padding when there are fewer items than the count and
no truncation when there are more. -/
theorem c5_test_cases_passthrough_no_padding (w : SolutionValidator) (gw : Gateway)
    (p raw : String) (n : Nat) (items : List Json)
    (hg : gw w.apiKey (buildTestCaseGenerationPrompt p n) = Except.ok raw)
    (hp : Json.parse raw = some (Json.arr items)) :
    (w.generate_test_cases gw p n).1 = Except.ok (Json.arr items) := by
  simp [SolutionValidator.generate_test_cases, hg, hp]

set_option maxRecDepth 8000 in
/-- C5 witness: a stubbed Gateway returns a 3-element array of well-formed
test case objects while 5 are requested; exactly those 3 items come back. -/
theorem c5_test_cases_passthrough_no_padding_witness :
    ((SolutionValidator.init (some ("key")) (some ("key"))).generate_test_cases
      (fun _ _ => Except.ok ("[\x7b\"input\": \"[1, 2, 3]\", \"expected_output\": \"6\", \"explanation\": \"normal case\"\x7d, \x7b\"input\": \"[]\", \"expected_output\": \"0\", \"explanation\": \"empty input\"\x7d, \x7b\"input\": \"[-5]\", \"expected_output\": \"-5\", \"explanation\": \"negative value\"\x7d]"))
      ("p") 5).1
      = Except.ok (Json.arr
        [Json.obj [("input", Json.str ("[1, 2, 3]")), ("expected_output", Json.str ("6")),
          ("explanation", Json.str ("normal case"))],
         Json.obj [("input", Json.str ("[]")), ("expected_output", Json.str ("0")),
          ("explanation", Json.str ("empty input"))],
         Json.obj [("input", Json.str ("[-5]")), ("expected_output", Json.str ("-5")),
          ("explanation", Json.str ("negative value"))]]) :=
  c5_test_cases_passthrough_no_padding
    (SolutionValidator.init (some ("key")) (some ("key")))
    (fun _ _ => Except.ok ("[\x7b\"input\": \"[1, 2, 3]\", \"expected_output\": \"6\", \"explanation\": \"normal case\"\x7d, \x7b\"input\": \"[]\", \"expected_output\": \"0\", \"explanation\": \"empty input\"\x7d, \x7b\"input\": \"[-5]\", \"expected_output\": \"-5\", \"explanation\": \"negative value\"\x7d]"))
    ("p")
    ("[\x7b\"input\": \"[1, 2, 3]\", \"expected_output\": \"6\", \"explanation\": \"normal case\"\x7d, \x7b\"input\": \"[]\", \"expected_output\": \"0\", \"explanation\": \"empty input\"\x7d, \x7b\"input\": \"[-5]\", \"expected_output\": \"-5\", \"explanation\": \"negative value\"\x7d]")
    5
    [Json.obj [("input", Json.str ("[1, 2, 3]")), ("expected_output", Json.str ("6")),
      ("explanation", Json.str ("normal case"))],
     Json.obj [("input", Json.str ("[]")), ("expected_output", Json.str ("0")),
      ("explanation", Json.str ("empty input"))],
     Json.obj [("input", Json.str ("[-5]")), ("expected_output", Json.str ("-5")),
      ("explanation", Json.str ("negative value"))]]
    rfl rfl

/-- C6: with a stubbed Gateway answering every prompt with the object
giving is_valid true and reason clear and solvable, validate_problem on
the statement Find max subarray sum returns that verdict, both at the
validator and through the HTTP endpoint, and the suggested_fixes field is
absent. -/
theorem c6_stub_gateway_verdict :
    ((DSAProblemValidator.init (some ("key")) (some ("key"))).validate_problem
      (fun _ _ => Except.ok ("\x7b\"is_valid\": true, \"reason\": \"clear and solvable\"\x7d"))
      ("Find max subarray sum")).1
      = Except.ok (Json.obj [("is_valid", Json.bool true),
          ("reason", Json.str ("clear and solvable"))])
    ∧ validate_problem_endpoint (some ("key"))
      (fun _ _ => Except.ok ("\x7b\"is_valid\": true, \"reason\": \"clear and solvable\"\x7d"))
      ("Find max subarray sum")
      = Except.ok (Json.obj [("is_valid", Json.bool true),
          ("reason", Json.str ("clear and solvable"))])
    ∧ okField ((DSAProblemValidator.init (some ("key")) (some ("key"))).validate_problem
      (fun _ _ => Except.ok ("\x7b\"is_valid\": true, \"reason\": \"clear and solvable\"\x7d"))
      ("Find max subarray sum")).1 ("suggested_fixes") = none :=
  ⟨rfl, rfl, rfl⟩

/-- C7: when the Gateway call raises, each of the three HTTP operations
surfaces the failure as a 500 response whose detail preserves the
underlying error message, and each operation sends exactly one prompt to
the Gateway, so the failed call is not retried. -/
theorem c7_gateway_error_maps_to_500 (env : Option String) (gw : Gateway)
    (p c l : String) (n : Nat) (e1 e2 e3 : String) :
    (gw (get_problem_validator env).apiKey (buildProblemValidationPrompt p)
        = Except.error e1 →
      validate_problem_endpoint env gw p
        = Except.error ⟨500, "Validation error: " ++ e1⟩)
    ∧ (gw (get_solution_validator env).apiKey (buildSolutionValidationPrompt p c l)
        = Except.error e2 →
      validate_solution_endpoint env gw p c l
        = Except.error ⟨500, "Solution validation error: " ++ e2⟩)
    ∧ (gw (get_solution_validator env).apiKey (buildTestCaseGenerationPrompt p n)
        = Except.error e3 →
      generate_test_cases_endpoint env gw p n
        = Except.error ⟨500, "Test case generation error: " ++ e3⟩)
    ∧ ((get_problem_validator env).validate_problem gw p).2
      = [buildProblemValidationPrompt p]
    ∧ ((get_solution_validator env).check_solution gw p c l).2
      = [buildSolutionValidationPrompt p c l]
    ∧ ((get_solution_validator env).generate_test_cases gw p n).2
      = [buildTestCaseGenerationPrompt p n] := by
  refine ⟨?_, ?_, ?_, rfl, rfl, rfl⟩
  · intro h
    simp [validate_problem_endpoint, DSAProblemValidator.validate_problem, h]
  · intro h
    simp [validate_solution_endpoint, SolutionValidator.check_solution, h]
  · intro h
    simp [generate_test_cases_endpoint, SolutionValidator.generate_test_cases, h]

/-- C7 witness: a concrete failing Gateway is surfaced by each endpoint as
a 500 response carrying the underlying message. -/
theorem c7_gateway_error_maps_to_500_witness :
    validate_problem_endpoint (some ("key")) (fun _ _ => Except.error ("quota exceeded")) ("p")
      = Except.error ⟨500, "Validation error: " ++ "quota exceeded"⟩
    ∧ validate_solution_endpoint (some ("key")) (fun _ _ => Except.error ("quota exceeded"))
      ("p") ("c") ("python")
      = Except.error ⟨500, "Solution validation error: " ++ "quota exceeded"⟩
    ∧ generate_test_cases_endpoint (some ("key")) (fun _ _ => Except.error ("quota exceeded"))
      ("p") 5
      = Except.error ⟨500, "Test case generation error: " ++ "quota exceeded"⟩ :=
  ⟨(c7_gateway_error_maps_to_500 (some ("key")) (fun _ _ => Except.error ("quota exceeded"))
      ("p") ("c") ("python") 5 ("quota exceeded") ("quota exceeded") ("quota exceeded")).1 rfl,
    (c7_gateway_error_maps_to_500 (some ("key")) (fun _ _ => Except.error ("quota exceeded"))
      ("p") ("c") ("python") 5 ("quota exceeded") ("quota exceeded") ("quota exceeded")).2.1 rfl,
    (c7_gateway_error_maps_to_500 (some ("key")) (fun _ _ => Except.error ("quota exceeded"))
      ("p") ("c") ("python") 5 ("quota exceeded") ("quota exceeded") ("quota exceeded")).2.2.1 rfl⟩

/-- C8: each prompt builder is a total Lean function, hence pure and
deterministic with no side effects, and the built prompt embeds the
problem statement verbatim as a substring; for solution checking the code
and the language tag are embedded verbatim as well, the language twice. -/
theorem c8_prompt_builders_embed_inputs (p c l : String) (n : Nat) :
    isSubstrOf p (buildProblemValidationPrompt p)
    ∧ isSubstrOf p (buildSolutionValidationPrompt p c l)
    ∧ isSubstrOf c (buildSolutionValidationPrompt p c l)
    ∧ isSubstrOf l (buildSolutionValidationPrompt p c l)
    ∧ isSubstrOf p (buildTestCaseGenerationPrompt p n) := by
  refine ⟨⟨vpHeader, vpFooter, rfl⟩,
    ⟨svA, svB ++ (l ++ (svC ++ (l ++ (svD ++ (c ++ svE))))), rfl⟩,
    ⟨svA ++ (p ++ (svB ++ (l ++ (svC ++ (l ++ svD))))), svE, ?_⟩,
    ⟨svA ++ (p ++ svB), svC ++ (l ++ (svD ++ (c ++ svE))), ?_⟩,
    ⟨tcA ++ (toString n ++ tcB), tcC, ?_⟩⟩
  · simp [buildSolutionValidationPrompt, String.append_assoc]
  · simp [buildSolutionValidationPrompt, String.append_assoc]
  · simp [buildTestCaseGenerationPrompt, String.append_assoc]

/-- C8 witness: the embedding statement at concrete inputs. -/
theorem c8_prompt_builders_embed_inputs_witness :
    isSubstrOf ("Find max subarray sum")
      (buildProblemValidationPrompt ("Find max subarray sum"))
    ∧ isSubstrOf ("def f(): pass")
      (buildSolutionValidationPrompt ("Find max subarray sum") ("def f(): pass") ("python")) :=
  ⟨(c8_prompt_builders_embed_inputs ("Find max subarray sum") ("def f(): pass")
      ("python") 5).1,
    (c8_prompt_builders_embed_inputs ("Find max subarray sum") ("def f(): pass")
      ("python") 5).2.2.1⟩

/-- C9: whenever the model response fails to parse as JSON, the dictionary
returned by validate_problem has is_valid false and the dictionary
returned by check_solution has is_correct false, so an unparseable
response never surfaces as a positive verdict. -/
theorem c9_parse_failure_negative_flags (v : DSAProblemValidator) (w : SolutionValidator)
    (gw : Gateway) (p c l raw : String)
    (hp : Json.parse raw = none) :
    (gw v.apiKey (buildProblemValidationPrompt p) = Except.ok raw →
      okField (v.validate_problem gw p).1 ("is_valid") = some (Json.bool false))
    ∧ (gw w.apiKey (buildSolutionValidationPrompt p c l) = Except.ok raw →
      okField (w.check_solution gw p c l).1 ("is_correct") = some (Json.bool false)) := by
  constructor
  · intro hg
    simp [DSAProblemValidator.validate_problem, hg, hp, okField, Json.getField, List.lookup]
  · intro hg
    simp [SolutionValidator.check_solution, hg, hp, okField, Json.getField, List.lookup]

/-- C9 witness: the negative flags at a concrete unparseable response. -/
theorem c9_parse_failure_negative_flags_witness :
    okField ((DSAProblemValidator.init (some ("k")) (some ("k"))).validate_problem
      (fun _ _ => Except.ok ("not json")) ("p")).1 ("is_valid") = some (Json.bool false)
    ∧ okField ((SolutionValidator.init (some ("k")) (some ("k"))).check_solution
      (fun _ _ => Except.ok ("not json")) ("p") ("c") ("python")).1 ("is_correct")
      = some (Json.bool false) :=
  ⟨(c9_parse_failure_negative_flags (DSAProblemValidator.init (some ("k")) (some ("k")))
      (SolutionValidator.init (some ("k")) (some ("k")))
      (fun _ _ => Except.ok ("not json")) ("p") ("c") ("python") ("not json") rfl).1 rfl,
    (c9_parse_failure_negative_flags (DSAProblemValidator.init (some ("k")) (some ("k")))
      (SolutionValidator.init (some ("k")) (some ("k")))
      (fun _ _ => Except.ok ("not json")) ("p") ("c") ("python") ("not json") rfl).2 rfl⟩

/-- C10: each of the three operations returns an exception exactly when
the Gateway call itself raised one; a parse failure of the returned text
never propagates as an exception but is converted into a returned value: a
fallback dictionary for the two validators, and for generate_test_cases a
one-element list whose item carries the error and raw_response keys and
lacks the input, expected_output and explanation fields. -/
theorem c10_raises_iff_gateway_raises (v : DSAProblemValidator) (w : SolutionValidator)
    (gw : Gateway) (p c l : String) (n : Nat) :
    isOkB (v.validate_problem gw p).1
      = isOkB (gw v.apiKey (buildProblemValidationPrompt p))
    ∧ isOkB (w.check_solution gw p c l).1
      = isOkB (gw w.apiKey (buildSolutionValidationPrompt p c l))
    ∧ isOkB (w.generate_test_cases gw p n).1
      = isOkB (gw w.apiKey (buildTestCaseGenerationPrompt p n))
    ∧ (∀ raw : String, gw v.apiKey (buildProblemValidationPrompt p) = Except.ok raw →
        Json.parse raw = none →
        (v.validate_problem gw p).1 = Except.ok (Json.obj
          [("is_valid", Json.bool false),
           ("reason", Json.str ("Error processing response: " ++ jsonErrorText raw)),
           ("raw_response", Json.str raw)]))
    ∧ (∀ raw : String, gw w.apiKey (buildSolutionValidationPrompt p c l) = Except.ok raw →
        Json.parse raw = none →
        (w.check_solution gw p c l).1 = Except.ok (Json.obj
          [("is_correct", Json.bool false),
           ("correctness_explanation", Json.str ("Error processing response: " ++ jsonErrorText raw)),
           ("raw_response", Json.str raw)]))
    ∧ (∀ raw : String, gw w.apiKey (buildTestCaseGenerationPrompt p n) = Except.ok raw →
        Json.parse raw = none →
        (w.generate_test_cases gw p n).1 = Except.ok (Json.arr
          [Json.obj [("error", Json.str ("Failed to generate test cases: " ++ jsonErrorText raw)),
                     ("raw_response", Json.str raw)]])
        ∧ (Json.obj [("error", Json.str ("Failed to generate test cases: " ++ jsonErrorText raw)),
            ("raw_response", Json.str raw)]).getField ("raw_response") = some (Json.str raw)
        ∧ (Json.obj [("error", Json.str ("Failed to generate test cases: " ++ jsonErrorText raw)),
            ("raw_response", Json.str raw)]).getField ("input") = none
        ∧ (Json.obj [("error", Json.str ("Failed to generate test cases: " ++ jsonErrorText raw)),
            ("raw_response", Json.str raw)]).getField ("expected_output") = none
        ∧ (Json.obj [("error", Json.str ("Failed to generate test cases: " ++ jsonErrorText raw)),
            ("raw_response", Json.str raw)]).getField ("explanation") = none) := by
  refine ⟨?_, ?_, ?_, ?_, ?_, ?_⟩
  · rcases h : gw v.apiKey (buildProblemValidationPrompt p) with e | t
    · simp [DSAProblemValidator.validate_problem, h, isOkB]
    · rcases h2 : Json.parse t with _ | j <;>
        simp [DSAProblemValidator.validate_problem, h, h2, isOkB]
  · rcases h : gw w.apiKey (buildSolutionValidationPrompt p c l) with e | t
    · simp [SolutionValidator.check_solution, h, isOkB]
    · rcases h2 : Json.parse t with _ | j <;>
        simp [SolutionValidator.check_solution, h, h2, isOkB]
  · rcases h : gw w.apiKey (buildTestCaseGenerationPrompt p n) with e | t
    · simp [SolutionValidator.generate_test_cases, h, isOkB]
    · rcases h2 : Json.parse t with _ | j <;>
        simp [SolutionValidator.generate_test_cases, h, h2, isOkB]
  · intro raw hg hp
    simp [DSAProblemValidator.validate_problem, hg, hp]
  · intro raw hg hp
    simp [SolutionValidator.check_solution, hg, hp]
  · intro raw hg hp
    refine ⟨?_, rfl, rfl, rfl, rfl⟩
    simp [SolutionValidator.generate_test_cases, hg, hp]

/-- C10 witness: the exception equivalence and the test case fallback at a
concrete Gateway and unparseable response. -/
theorem c10_raises_iff_gateway_raises_witness :
    ((SolutionValidator.init (some ("k")) (some ("k"))).generate_test_cases
      (fun _ _ => Except.ok ("not json")) ("p") 5).1
      = Except.ok (Json.arr
        [Json.obj [("error", Json.str ("Failed to generate test cases: " ++ jsonErrorText ("not json"))),
                   ("raw_response", Json.str ("not json"))]])
    ∧ isOkB ((DSAProblemValidator.init (some ("k")) (some ("k"))).validate_problem
      (fun _ _ => Except.error ("boom")) ("p")).1
      = isOkB (Except.error ("boom") : Except String String) :=
  ⟨((c10_raises_iff_gateway_raises (DSAProblemValidator.init (some ("k")) (some ("k")))
      (SolutionValidator.init (some ("k")) (some ("k")))
      (fun _ _ => Except.ok ("not json")) ("p") ("c") ("python") 5).2.2.2.2.2
      ("not json") rfl rfl).1,
    (c10_raises_iff_gateway_raises (DSAProblemValidator.init (some ("k")) (some ("k")))
      (SolutionValidator.init (some ("k")) (some ("k")))
      (fun _ _ => Except.error ("boom")) ("p") ("c") ("python") 5).1⟩
